import Mathlib

/-!
Shallow embedding of `cmd/sysinfo/sysinfo.go` (k0s): the sysinfo reporting
layer, consisting of the human-readable CLI reporter (`cliReporter`), the
structured results collector (`resultsCollector`), and the command driver
dispatching on the requested output format.

Modelling conventions:
* `probes.ProbeDesc` (a Go interface with `Path()` and `DisplayName()`) is a
  structure with those two fields; where the Go code checks the interface
  value for nil (`indent`), the argument is an `Option ProbeDesc`.
* `probes.ProbedProp` (an interface with `String()`, possibly nil) is
  `Option String`.
* Go `error` values are `Option String`: the message returned by `Error()`,
  with `none` for a nil error.
* The output sink `io.Writer` is modelled by a write function
  `String -> Option String` (respectively `Bytes -> Option String`)
  returning the write error, together with an explicit list of the writes a
  call performs.
* The aurora colorization is modelled in its non-interactive mode
  (`aurora.NewAurora(false)`), in which every color wrapper is the identity
  on its argument and `aurora.Sprintf` on a format of `%s` verbs followed by
  a newline is string concatenation followed by a newline.
* The probe engine (`probes.Probe`, outside this repository slice) is
  modelled as delivering a list of callback events to the active reporter
  and then returning its own optional error.
* `[]byte` is `List Nat`; the marshal functions (`json.MarshalIndent`,
  `yaml.Marshal`) are abstract parameters of type
  `List Probe -> Except String Bytes`.
-/

/-- A probe descriptor (`probes.ProbeDesc`): a hierarchical path and a
human-readable display name. -/
structure ProbeDesc where
  path : List String
  displayName : String
deriving DecidableEq

/-- A probed property (`probes.ProbedProp`): an optional value with a string
representation; `none` models a nil interface value. -/
abbrev ProbedProp := Option String

/-- `propString` from sysinfo.go: the property's string representation, or
the empty string when the property is nil. -/
def propString (p : ProbedProp) : String :=
  match p with
  | none => ""
  | some s => s

/-- `probePath` from sysinfo.go: nil (here `[]`) for an empty path,
otherwise the descriptor's path. -/
def probePath (p : ProbeDesc) : List String :=
  if p.path.length = 0 then [] else p.path

/-- `strings.Repeat`: the string `s` concatenated `n` times. -/
def stringRepeat (s : String) : Nat → String
  | 0 => ""
  | n + 1 => s ++ stringRepeat s n

/-- `indent` from sysinfo.go: `strings.Repeat("  ", count)` with
`count = len(path) - 1`; a nil descriptor keeps `count = 0` (so the result
is empty), and a non-nil descriptor with `count < 1` returns the empty
string early. -/
def indent (p : Option ProbeDesc) : String :=
  match p with
  | none => ""
  | some d =>
    if d.path.length ≤ 1 then ""
    else stringRepeat "  " (d.path.length - 1)

/-- `buildMsg` from sysinfo.go: a leading space when the property string is
non-empty, then the category in parentheses, with `: msg` appended inside
the parentheses when the message is non-empty. -/
def buildMsg (propString category msg : String) : String :=
  (if propString ≠ "" then " " else "")
    ++ "(" ++ category
    ++ (if msg ≠ "" then ": " ++ msg else "")
    ++ ")"

/-- Go `%q` formatting, modelled for strings that need no escaping: the
string wrapped in double quotes. -/
def goQuote (s : String) : String := "\"" ++ s ++ "\""

/-- `ProbeCategory` from sysinfo.go (a Go string type). -/
abbrev ProbeCategory := String

/-- The `pass` outcome category. -/
def ProbeCategoryPass : ProbeCategory := "pass"

/-- The `warning` outcome category. -/
def ProbeCategoryWarning : ProbeCategory := "warning"

/-- The `rejected` outcome category. -/
def ProbeCategoryRejected : ProbeCategory := "rejected"

/-- The `error` outcome category. -/
def ProbeCategoryError : ProbeCategory := "error"

/-- The `Probe` result record from sysinfo.go. Fields omitted from the Go
struct literals take their zero values, modelled here as defaults. -/
structure Probe where
  Path : List String
  DisplayName : String
  Prop' : String := ""
  Message : String := ""
  Category : ProbeCategory
  Error : Option String := none
deriving DecidableEq

/-- `resultsCollector` from sysinfo.go; the defaults are the Go zero value
used by `collectAndPrint`'s `var c resultsCollector`. -/
structure resultsCollector where
  results : List Probe := []
  failed : Bool := false
deriving DecidableEq

/-- `resultsCollector.Pass`: appends one pass record, returns nil. -/
def resultsCollector.Pass (r : resultsCollector) (p : ProbeDesc) (v : ProbedProp) :
    resultsCollector × Option String :=
  ({ r with results := r.results ++
    [{ Path := probePath p, DisplayName := p.displayName,
       Prop' := propString v, Category := ProbeCategoryPass }] }, none)

/-- `resultsCollector.Warn`: appends one warning record, returns nil. -/
def resultsCollector.Warn (r : resultsCollector) (p : ProbeDesc) (v : ProbedProp)
    (msg : String) : resultsCollector × Option String :=
  ({ r with results := r.results ++
    [{ Path := probePath p, DisplayName := p.displayName,
       Prop' := propString v, Message := msg, Category := ProbeCategoryWarning }] }, none)

/-- `resultsCollector.Reject`: sets the failure flag, appends one rejected
record, returns nil. -/
def resultsCollector.Reject (r : resultsCollector) (p : ProbeDesc) (v : ProbedProp)
    (msg : String) : resultsCollector × Option String :=
  ({ r with failed := true, results := r.results ++
    [{ Path := probePath p, DisplayName := p.displayName,
       Prop' := propString v, Message := msg, Category := ProbeCategoryRejected }] }, none)

/-- `resultsCollector.Error`: sets the failure flag, appends one error
record, returns nil. -/
def resultsCollector.Error (r : resultsCollector) (p : ProbeDesc)
    (err : Option String) : resultsCollector × Option String :=
  ({ r with failed := true, results := r.results ++
    [{ Path := probePath p, DisplayName := p.displayName,
       Category := ProbeCategoryError, Error := err }] }, none)

/-- One probe-engine callback to a reporter. -/
inductive ProbeEvent where
  | pass (p : ProbeDesc) (v : ProbedProp)
  | warn (p : ProbeDesc) (v : ProbedProp) (msg : String)
  | reject (p : ProbeDesc) (v : ProbedProp) (msg : String)
  | error (p : ProbeDesc) (err : Option String)
deriving DecidableEq

/-- Dispatch one callback to the collector; the second component is the
Go return value of the callback. -/
def collectorStep (r : resultsCollector) : ProbeEvent → resultsCollector × Option String
  | .pass p v => r.Pass p v
  | .warn p v msg => r.Warn p v msg
  | .reject p v msg => r.Reject p v msg
  | .error p err => r.Error p err

/-- The outcome category each callback assigns. -/
def eventCategory : ProbeEvent → ProbeCategory
  | .pass _ _ => ProbeCategoryPass
  | .warn _ _ _ => ProbeCategoryWarning
  | .reject _ _ _ => ProbeCategoryRejected
  | .error _ _ => ProbeCategoryError

/-- Whether a callback is a `Reject` or an `Error`. -/
def isFailureEvent : ProbeEvent → Bool
  | .reject _ _ _ => true
  | .error _ _ => true
  | _ => false

/-- The result record the collector appends for each callback. -/
def eventRecord : ProbeEvent → Probe
  | .pass p v =>
    { Path := probePath p, DisplayName := p.displayName,
      Prop' := propString v, Category := ProbeCategoryPass }
  | .warn p v msg =>
    { Path := probePath p, DisplayName := p.displayName,
      Prop' := propString v, Message := msg, Category := ProbeCategoryWarning }
  | .reject p v msg =>
    { Path := probePath p, DisplayName := p.displayName,
      Prop' := propString v, Message := msg, Category := ProbeCategoryRejected }
  | .error p err =>
    { Path := probePath p, DisplayName := p.displayName,
      Category := ProbeCategoryError, Error := err }

/-- Run the collector over a callback sequence from the Go zero value. -/
def runCollector (events : List ProbeEvent) : resultsCollector :=
  events.foldl (fun r e => (collectorStep r e).1) {}

/-- Marshalled bytes (`[]byte`). -/
abbrev Bytes := List Nat

/-- `collectAndPrint` from sysinfo.go. The probe engine delivers `events`
to a fresh collector and returns `engineErr`; the result is the function's
returned error together with the list of writes performed on the output
sink. -/
def collectAndPrint (events : List ProbeEvent) (engineErr : Option String)
    (marshal : List Probe → Except String Bytes) (write : Bytes → Option String) :
    Option String × List Bytes :=
  match engineErr with
  | some e => (some e, [])
  | none =>
    if (runCollector events).failed then (some "sysinfo failed", [])
    else
      match marshal (runCollector events).results with
      | .error e => (some e, [])
      | .ok bytes => (write bytes, [bytes])

/-- `cliReporter` from sysinfo.go. The writer and the aurora instance are
modelled outside the structure: the writer as a write function passed to
each callback, the colors in non-interactive mode (identity). -/
structure cliReporter where
  failed : Bool := false
deriving DecidableEq

/-- `cliReporter.printf`: one `io.WriteString` of the formatted string;
returns the list of writes performed and the write error. -/
def cliReporter.printf (wf : String → Option String) (s : String) :
    List String × Option String :=
  ([s], wf s)

/-- `cliReporter.Pass` from sysinfo.go, in non-interactive color mode. -/
def cliReporter.Pass (r : cliReporter) (wf : String → Option String)
    (p : ProbeDesc) (v : ProbedProp) : cliReporter × List String × Option String :=
  (r, cliReporter.printf wf
    (indent (some p) ++ (p.displayName ++ ": ") ++ propString v
      ++ buildMsg (propString v) "pass" "" ++ "\n"))

/-- `cliReporter.Warn` from sysinfo.go, in non-interactive color mode. -/
def cliReporter.Warn (r : cliReporter) (wf : String → Option String)
    (p : ProbeDesc) (v : ProbedProp) (msg : String) :
    cliReporter × List String × Option String :=
  (r, cliReporter.printf wf
    (indent (some p) ++ (p.displayName ++ ": ") ++ propString v
      ++ buildMsg (propString v) "warning" msg ++ "\n"))

/-- `cliReporter.Reject` from sysinfo.go: sets the failure flag before
printing, in non-interactive color mode. -/
def cliReporter.Reject (r : cliReporter) (wf : String → Option String)
    (p : ProbeDesc) (v : ProbedProp) (msg : String) :
    cliReporter × List String × Option String :=
  ({ r with failed := true }, cliReporter.printf wf
    (indent (some p) ++ (p.displayName ++ ": ") ++ propString v
      ++ buildMsg (propString v) "rejected" msg ++ "\n"))

/-- `cliReporter.Error` from sysinfo.go: sets the failure flag; the printed
error text is `error` alone for a nil error or an empty error message, and
`error: <text>` otherwise. -/
def cliReporter.Error (r : cliReporter) (wf : String → Option String)
    (p : ProbeDesc) (err : Option String) : cliReporter × List String × Option String :=
  ({ r with failed := true }, cliReporter.printf wf
    (indent (some p) ++ (p.displayName ++ ": ")
      ++ (match err with
          | none => "error"
          | some e => if e ≠ "" then "error: " ++ e else "error")
      ++ "\n"))

/-- Dispatch one callback to the CLI reporter. -/
def cliStep (wf : String → Option String) (r : cliReporter) :
    ProbeEvent → cliReporter × List String × Option String
  | .pass p v => r.Pass wf p v
  | .warn p v msg => r.Warn wf p v msg
  | .reject p v msg => r.Reject wf p v msg
  | .error p err => r.Error wf p err

/-- Run the CLI reporter over a callback sequence from the initial state,
accumulating the writes performed. -/
def runCli (wf : String → Option String) (events : List ProbeEvent) :
    cliReporter × List String :=
  events.foldl
    (fun acc e => ((cliStep wf acc.1 e).1, acc.2 ++ (cliStep wf acc.1 e).2.1))
    ({}, [])

/-- The `"text"` branch of the sysinfo command: run the probes with the CLI
reporter, propagate the engine's error, otherwise fail with
`sysinfo failed` exactly when the failure flag is set. -/
def sysinfoTextPath (wf : String → Option String) (events : List ProbeEvent)
    (engineErr : Option String) : Option String :=
  match engineErr with
  | some e => some e
  | none => if (runCli wf events).1.failed then some "sysinfo failed" else none

/-- The `RunE` body of `NewSysinfoCmd`, dispatching on the output format.
The second component counts the invocations of the probe engine's `Probe`
entry point (`1` on the text/json/yaml branches, `0` on the default
branch). -/
def sysinfoRunE (outputFormat : String) (wf : String → Option String)
    (events : List ProbeEvent) (engineErr : Option String)
    (marshalJSON marshalYAML : List Probe → Except String Bytes)
    (write : Bytes → Option String) : Option String × Nat :=
  if outputFormat = "text" then (sysinfoTextPath wf events engineErr, 1)
  else if outputFormat = "json" then
    ((collectAndPrint events engineErr marshalJSON write).1, 1)
  else if outputFormat = "yaml" then
    ((collectAndPrint events engineErr marshalYAML write).1, 1)
  else (some ("unknown output format: " ++ goQuote outputFormat), 0)

/-- A string containing no newline character. -/
abbrev nlFree (s : String) : Prop := '\n' ∉ s.data

/-- A callback result that performs exactly one write, of a single
newline-terminated line, and returns the write function's result on that
line. -/
abbrev writesOneLine (res : cliReporter × List String × Option String)
    (wf : String → Option String) : Prop :=
  ∃ t, nlFree t ∧ res.2.1 = [t ++ "\n"] ∧ res.2.2 = wf (t ++ "\n")

/-- The character data of a string concatenation. -/
theorem data_append_eq (a b : String) : (a ++ b).data = a.data ++ b.data := rfl

/-- Strings with equal character data are equal. -/
theorem str_data_ext {a b : String} (h : a.data = b.data) : a = b := by
  cases a; cases b; cases h; rfl

/-- String concatenation is associative. -/
theorem str_append_assoc (a b c : String) : a ++ b ++ c = a ++ (b ++ c) :=
  str_data_ext (by simp [data_append_eq])

/-- `strings.Repeat("  ", n)` consists of `2 * n` space characters. -/
theorem stringRepeat_two_space_data (n : Nat) :
    (stringRepeat "  " n).data = List.replicate (2 * n) ' ' := by
  induction n with
  | zero => rfl
  | succ k ih =>
    show ("  " ++ stringRepeat "  " k).data = _
    rw [data_append_eq, ih, Nat.mul_succ]
    rfl

/-- One collector callback: the state after the step. -/
theorem collectorStep_fst (r : resultsCollector) (e : ProbeEvent) :
    (collectorStep r e).1 =
      { results := r.results ++ [eventRecord e],
        failed := r.failed || isFailureEvent e } := by
  cases e <;>
    simp [collectorStep, resultsCollector.Pass, resultsCollector.Warn,
      resultsCollector.Reject, resultsCollector.Error, eventRecord, isFailureEvent]

/-- Folding the collector over a callback list from an arbitrary state. -/
theorem foldl_collector (l : List ProbeEvent) (r : resultsCollector) :
    l.foldl (fun r e => (collectorStep r e).1) r =
      { results := r.results ++ l.map eventRecord,
        failed := r.failed || l.any isFailureEvent } := by
  induction l generalizing r with
  | nil => simp
  | cons e t ih =>
    rw [List.foldl_cons, ih, collectorStep_fst]
    simp [Bool.or_assoc]

/-- The collector run from the zero value: ordered records and the failure
flag. -/
theorem runCollector_eq (events : List ProbeEvent) :
    runCollector events =
      { results := events.map eventRecord,
        failed := events.any isFailureEvent } := by
  unfold runCollector
  rw [foldl_collector]
  simp

/-- The category of the appended record matches the callback's category. -/
theorem eventRecord_Category (e : ProbeEvent) :
    (eventRecord e).Category = eventCategory e := by
  cases e <;> rfl

/-- One CLI callback: the failure flag after the step. -/
theorem cliStep_failed (wf : String → Option String) (r : cliReporter)
    (e : ProbeEvent) :
    (cliStep wf r e).1.failed = (r.failed || isFailureEvent e) := by
  cases e <;>
    simp [cliStep, cliReporter.Pass, cliReporter.Warn, cliReporter.Reject,
      cliReporter.Error, isFailureEvent]

/-- Folding the CLI reporter over a callback list from an arbitrary
accumulator: the failure flag. -/
theorem runCliAux_failed (wf : String → Option String) (l : List ProbeEvent)
    (acc : cliReporter × List String) :
    (l.foldl
      (fun acc e => ((cliStep wf acc.1 e).1, acc.2 ++ (cliStep wf acc.1 e).2.1))
      acc).1.failed = (acc.1.failed || l.any isFailureEvent) := by
  induction l generalizing acc with
  | nil => simp
  | cons e t ih =>
    simp [List.foldl_cons, ih, cliStep_failed, Bool.or_assoc]

/-- The CLI reporter's failure flag after a whole run. -/
theorem runCli_failed (wf : String → Option String) (events : List ProbeEvent) :
    (runCli wf events).1.failed = events.any isFailureEvent := by
  unfold runCli
  rw [runCliAux_failed]
  rfl

/-- Newline-freeness is preserved by concatenation. -/
theorem nlFree_append {a b : String} (ha : nlFree a) (hb : nlFree b) :
    nlFree (a ++ b) := by
  intro h
  rw [data_append_eq] at h
  rcases List.mem_append.mp h with h | h
  · exact ha h
  · exact hb h

/-- The indentation string contains no newline. -/
theorem nlFree_indent (p : Option ProbeDesc) : nlFree (indent p) := by
  cases p with
  | none => decide
  | some d =>
    show nlFree (indent (some d))
    unfold indent
    by_cases h : d.path.length ≤ 1
    · simp only [h, if_true]
      decide
    · simp only [h, if_false]
      intro hmem
      rw [stringRepeat_two_space_data] at hmem
      exact absurd (List.eq_of_mem_replicate hmem) (by decide)

/-- `buildMsg` contains no newline when the category and message do not. -/
theorem nlFree_buildMsg (prop cat msg : String) (hc : nlFree cat)
    (hm : nlFree msg) : nlFree (buildMsg prop cat msg) := by
  unfold buildMsg
  refine nlFree_append (nlFree_append (nlFree_append (nlFree_append ?_ ?_) hc) ?_) ?_
  · split
    · decide
    · decide
  · decide
  · split
    · exact nlFree_append (by decide) hm
    · decide
  · decide

/-- C1: for every sequence of probe callbacks delivered to the structured
result collector that contains at least one Reject or Error callback, the
json/yaml path (`collectAndPrint`) returns the aggregate error
`sysinfo failed` and performs zero writes on the output sink, for every
marshaller and every sink. -/
theorem collectAndPrint_failure_zero_output (events : List ProbeEvent)
    (marshal : List Probe → Except String Bytes) (write : Bytes → Option String)
    (h : events.any isFailureEvent = true) :
    collectAndPrint events none marshal write = (some "sysinfo failed", []) := by
  unfold collectAndPrint
  rw [runCollector_eq]
  simp [h]

/-- Witness for C1 at a concrete one-reject callback sequence. -/
theorem collectAndPrint_failure_zero_output_witness :
    collectAndPrint [ProbeEvent.reject ⟨["a"], "n"⟩ none "nope"] none
      (fun _ => Except.ok []) (fun _ => none) = (some "sysinfo failed", []) :=
  collectAndPrint_failure_zero_output _ _ _ (by decide)

/-- C2: for every sequence of probe callbacks with zero Reject and zero
Error callbacks, the structured path succeeds (returns no error) and writes
exactly one serialized document, whose record sequence has exactly one
record per callback invocation, in callback order, each record's category
matching the callback that created it. -/
theorem collectAndPrint_success_document (events : List ProbeEvent)
    (marshal : List Probe → Except String Bytes) (write : Bytes → Option String)
    (bytes : Bytes)
    (hok : events.any isFailureEvent = false)
    (hm : marshal (runCollector events).results = Except.ok bytes)
    (hw : write bytes = none) :
    collectAndPrint events none marshal write = (none, [bytes]) ∧
    (runCollector events).results.length = events.length ∧
    (runCollector events).results.map (fun rec => rec.Category)
      = events.map eventCategory := by
  have hres : (runCollector events).results = events.map eventRecord := by
    rw [runCollector_eq]
  have hfail : (runCollector events).failed = false := by
    rw [runCollector_eq]; exact hok
  refine ⟨?_, ?_, ?_⟩
  · unfold collectAndPrint
    simp [hfail, hm, hw]
  · rw [hres]; simp
  · rw [hres, List.map_map]
    simp [Function.comp, eventRecord_Category]

/-- Witness for C2 at a concrete one-pass callback sequence. -/
theorem collectAndPrint_success_document_witness :
    collectAndPrint [ProbeEvent.pass ⟨[], "host"⟩ (some "linux")] none
        (fun _ => Except.ok [1]) (fun _ => none) = (none, [[1]]) ∧
    (runCollector [ProbeEvent.pass ⟨[], "host"⟩ (some "linux")]).results.length
      = [ProbeEvent.pass ⟨[], "host"⟩ (some "linux")].length ∧
    (runCollector [ProbeEvent.pass ⟨[], "host"⟩ (some "linux")]).results.map
        (fun rec => rec.Category)
      = [ProbeEvent.pass ⟨[], "host"⟩ (some "linux")].map eventCategory :=
  collectAndPrint_success_document _ _ _ _ (by decide) rfl rfl

/-- C3: for both reporters, starting from the initial state, after any
callback sequence the failure flag is set exactly when the sequence has a
Reject or Error callback; Pass and Warn never change the flag; and the flag
decides the final `sysinfo failed` outcome on both the text path and the
structured path. -/
theorem failed_flag_iff (wf : String → Option String) (events : List ProbeEvent)
    (marshal : List Probe → Except String Bytes) (write : Bytes → Option String) :
    ((runCli wf events).1.failed = events.any isFailureEvent) ∧
    ((runCollector events).failed = events.any isFailureEvent) ∧
    (∀ (rc : cliReporter) (rr : resultsCollector) (p : ProbeDesc)
        (v : ProbedProp) (msg : String),
      (rc.Pass wf p v).1.failed = rc.failed ∧
      (rc.Warn wf p v msg).1.failed = rc.failed ∧
      (rr.Pass p v).1.failed = rr.failed ∧
      (rr.Warn p v msg).1.failed = rr.failed) ∧
    (sysinfoTextPath wf events none =
      if (runCli wf events).1.failed then some "sysinfo failed" else none) ∧
    ((runCollector events).failed = true →
      collectAndPrint events none marshal write = (some "sysinfo failed", [])) := by
  refine ⟨runCli_failed wf events, ?_, ?_, rfl, ?_⟩
  · rw [runCollector_eq]
  · intro rc rr p v msg
    exact ⟨rfl, rfl, rfl, rfl⟩
  · intro h
    unfold collectAndPrint
    simp [h]

/-- Witness for C3: at a concrete sequence with one Error callback the
structured path fails with the aggregate error. -/
theorem failed_flag_iff_witness :
    collectAndPrint [ProbeEvent.error ⟨["a"], "x"⟩ none] none
      (fun _ => Except.ok []) (fun _ => none) = (some "sysinfo failed", []) :=
  (failed_flag_iff (fun _ => none) [ProbeEvent.error ⟨["a"], "x"⟩ none]
    (fun _ => Except.ok []) (fun _ => none)).2.2.2.2 (by decide)

/-- C4: for every output-format string other than `text`, `json` and
`yaml`, the command returns the format-validation error
`unknown output format: ...` and the probe engine's entry point is invoked
zero times. -/
theorem unknown_format_no_probe (outputFormat : String)
    (wf : String → Option String) (events : List ProbeEvent)
    (engineErr : Option String)
    (marshalJSON marshalYAML : List Probe → Except String Bytes)
    (write : Bytes → Option String)
    (h1 : outputFormat ≠ "text") (h2 : outputFormat ≠ "json")
    (h3 : outputFormat ≠ "yaml") :
    sysinfoRunE outputFormat wf events engineErr marshalJSON marshalYAML write
      = (some ("unknown output format: " ++ goQuote outputFormat), 0) := by
  unfold sysinfoRunE
  simp [h1, h2, h3]

/-- Witness for C4 at the concrete format string `csv`. -/
theorem unknown_format_no_probe_witness :
    sysinfoRunE "csv" (fun _ => none) [] none (fun _ => Except.ok [])
      (fun _ => Except.ok []) (fun _ => none)
      = (some ("unknown output format: " ++ goQuote "csv"), 0) :=
  unknown_format_no_probe _ _ _ _ _ _ _ (by decide) (by decide) (by decide)

/-- C5: the indentation produced for a probe descriptor is a pure function
of its path length: length at most 1 yields the empty string, and length
`N > 1` yields exactly `2 * (N - 1)` space characters. -/
theorem indent_pure_in_path_length (d : ProbeDesc) :
    indent (some d) =
      if d.path.length ≤ 1 then ""
      else String.mk (List.replicate (2 * (d.path.length - 1)) ' ') := by
  show (if d.path.length ≤ 1 then "" else stringRepeat "  " (d.path.length - 1)) = _
  by_cases h : d.path.length ≤ 1
  · rw [if_pos h, if_pos h]
  · rw [if_neg h, if_neg h]
    exact str_data_ext (by rw [stringRepeat_two_space_data])

/-- C6: `cliReporter.Error` renders the literal word `error` with no
trailing colon or detail for a nil error and for an error with empty text,
and `error: <text>` for an error with non-empty text. -/
theorem cliReporter_Error_text (r : cliReporter) (wf : String → Option String)
    (p : ProbeDesc) :
    ((cliReporter.Error r wf p none).2.1
        = [indent (some p) ++ (p.displayName ++ ": ") ++ "error" ++ "\n"]) ∧
    ((cliReporter.Error r wf p (some "")).2.1
        = [indent (some p) ++ (p.displayName ++ ": ") ++ "error" ++ "\n"]) ∧
    (∀ e : String, e ≠ "" →
      (cliReporter.Error r wf p (some e)).2.1
        = [indent (some p) ++ (p.displayName ++ ": ") ++ ("error: " ++ e) ++ "\n"]) := by
  refine ⟨rfl, ?_, ?_⟩
  · simp [cliReporter.Error, cliReporter.printf]
  · intro e he
    simp [cliReporter.Error, cliReporter.printf, he]

/-- Witness for C6 at a concrete descriptor and non-empty error text. -/
theorem cliReporter_Error_text_witness :
    (cliReporter.Error {} (fun _ => none) ⟨[], "disk"⟩ (some "boom")).2.1
      = [indent (some ⟨[], "disk"⟩) ++ ("disk" ++ ": ") ++ ("error: " ++ "boom") ++ "\n"] :=
  (cliReporter_Error_text {} (fun _ => none) ⟨[], "disk"⟩).2.2 "boom" (by decide)

/-- `buildMsg` regrouped: the optional leading space followed by the
parenthesized category and optional `: msg`. -/
theorem buildMsg_eq (prop cat msg : String) :
    buildMsg prop cat msg =
      (if prop ≠ "" then " " else "")
        ++ ("(" ++ (cat ++ ((if msg ≠ "" then ": " ++ msg else "") ++ ")"))) :=
  str_data_ext (by simp [buildMsg, data_append_eq])

/-- C7: the Warn and Reject lines of the human reporter carry the suffix
`(warning[: msg])` respectively `(rejected[: msg])`, where `: msg` appears
exactly when the message is non-empty, and the suffix is preceded by a
single space exactly when the property string is non-empty. -/
theorem warn_reject_suffix (r : cliReporter) (wf : String → Option String)
    (p : ProbeDesc) (v : ProbedProp) (msg : String) :
    ((cliReporter.Warn r wf p v msg).2.1 =
      [indent (some p) ++ (p.displayName ++ ": ") ++ propString v
        ++ ((if propString v ≠ "" then " " else "")
            ++ ("(" ++ ("warning" ++ ((if msg ≠ "" then ": " ++ msg else "") ++ ")"))))
        ++ "\n"]) ∧
    ((cliReporter.Reject r wf p v msg).2.1 =
      [indent (some p) ++ (p.displayName ++ ": ") ++ propString v
        ++ ((if propString v ≠ "" then " " else "")
            ++ ("(" ++ ("rejected" ++ ((if msg ≠ "" then ": " ++ msg else "") ++ ")"))))
        ++ "\n"]) := by
  constructor
  · simp [cliReporter.Warn, cliReporter.printf, buildMsg_eq]
  · simp [cliReporter.Reject, cliReporter.printf, buildMsg_eq]

/-- C8: every human-reporter callback performs exactly one write to the
output sink, whose content is a single line ending in one trailing newline
(given that the display name, the property string, the message and the
error text contain no newline), and returns the sink's write result on
that line unchanged. -/
theorem cli_callbacks_single_write (r : cliReporter) (wf : String → Option String)
    (p : ProbeDesc) (v : ProbedProp) (msg : String) (err : Option String)
    (hdn : nlFree p.displayName) (hv : nlFree (propString v))
    (hmsg : nlFree msg) (herr : nlFree (err.getD "")) :
    writesOneLine (cliReporter.Pass r wf p v) wf ∧
    writesOneLine (cliReporter.Warn r wf p v msg) wf ∧
    writesOneLine (cliReporter.Reject r wf p v msg) wf ∧
    writesOneLine (cliReporter.Error r wf p err) wf := by
  have hind : nlFree (indent (some p)) := nlFree_indent (some p)
  have hdn2 : nlFree (p.displayName ++ ": ") := nlFree_append hdn (by decide)
  refine ⟨?_, ?_, ?_, ?_⟩
  · exact ⟨indent (some p) ++ (p.displayName ++ ": ") ++ propString v
        ++ buildMsg (propString v) "pass" "",
      nlFree_append (nlFree_append (nlFree_append hind hdn2) hv)
        (nlFree_buildMsg _ _ _ (by decide) (by decide)),
      rfl, rfl⟩
  · exact ⟨indent (some p) ++ (p.displayName ++ ": ") ++ propString v
        ++ buildMsg (propString v) "warning" msg,
      nlFree_append (nlFree_append (nlFree_append hind hdn2) hv)
        (nlFree_buildMsg _ _ _ (by decide) hmsg),
      rfl, rfl⟩
  · exact ⟨indent (some p) ++ (p.displayName ++ ": ") ++ propString v
        ++ buildMsg (propString v) "rejected" msg,
      nlFree_append (nlFree_append (nlFree_append hind hdn2) hv)
        (nlFree_buildMsg _ _ _ (by decide) hmsg),
      rfl, rfl⟩
  · cases err with
    | none =>
      exact ⟨indent (some p) ++ (p.displayName ++ ": ") ++ "error",
        nlFree_append (nlFree_append hind hdn2) (by decide), rfl, rfl⟩
    | some e =>
      refine ⟨indent (some p) ++ (p.displayName ++ ": ")
          ++ (if e ≠ "" then "error: " ++ e else "error"),
        nlFree_append (nlFree_append hind hdn2) ?_, rfl, rfl⟩
      split
      · exact nlFree_append (by decide) herr
      · decide

/-- Witness for C8 at concrete newline-free inputs. -/
theorem cli_callbacks_single_write_witness :
    writesOneLine
      (cliReporter.Pass {} (fun _ => none) ⟨["a", "b"], "mem"⟩ (some "1G"))
      (fun _ => none) ∧
    writesOneLine
      (cliReporter.Warn {} (fun _ => none) ⟨["a", "b"], "mem"⟩ (some "1G") "m")
      (fun _ => none) ∧
    writesOneLine
      (cliReporter.Reject {} (fun _ => none) ⟨["a", "b"], "mem"⟩ (some "1G") "m")
      (fun _ => none) ∧
    writesOneLine
      (cliReporter.Error {} (fun _ => none) ⟨["a", "b"], "mem"⟩ (some "e"))
      (fun _ => none) :=
  cli_callbacks_single_write {} (fun _ => none) ⟨["a", "b"], "mem"⟩ (some "1G")
    "m" (some "e") (by decide) (by decide) (by decide) (by decide)

/-- C9: every collector callback appends exactly one new result record at
the end of the collector's sequence and leaves every previously appended
record unchanged. -/
theorem collector_appends_single_record (r : resultsCollector) (e : ProbeEvent) :
    (collectorStep r e).1.results.length = r.results.length + 1 ∧
    (collectorStep r e).1.results.take r.results.length = r.results ∧
    (collectorStep r e).1.results.getLast? = some (eventRecord e) := by
  rw [collectorStep_fst]
  refine ⟨by simp, ?_, by simp⟩
  simp [List.take_left]

/-- C10: every collector callback returns nil, and the only possible errors
of the structured path are the probe engine's own error, the aggregate
`sysinfo failed` error, a marshalling error, or the final write's error. -/
theorem collector_never_fails (events : List ProbeEvent) (engineErr : Option String)
    (marshal : List Probe → Except String Bytes) (write : Bytes → Option String) :
    (∀ (r : resultsCollector) (e : ProbeEvent), (collectorStep r e).2 = none) ∧
    ((collectAndPrint events engineErr marshal write).1 = none ∨
     (collectAndPrint events engineErr marshal write).1 = engineErr ∨
     (collectAndPrint events engineErr marshal write).1 = some "sysinfo failed" ∨
     (∃ s, marshal (runCollector events).results = Except.error s ∧
        (collectAndPrint events engineErr marshal write).1 = some s) ∨
     (∃ b, marshal (runCollector events).results = Except.ok b ∧
        (collectAndPrint events engineErr marshal write).1 = write b)) := by
  constructor
  · intro r e
    cases e <;> rfl
  · unfold collectAndPrint
    cases engineErr with
    | some e => exact Or.inr (Or.inl rfl)
    | none =>
      by_cases h : (runCollector events).failed
      · refine Or.inr (Or.inr (Or.inl ?_))
        simp [h]
      · cases hm : marshal (runCollector events).results with
        | error s =>
          refine Or.inr (Or.inr (Or.inr (Or.inl ⟨s, rfl, ?_⟩)))
          simp [h]
        | ok b =>
          refine Or.inr (Or.inr (Or.inr (Or.inr ⟨b, rfl, ?_⟩)))
          simp [h]
